import Mathlib

/-!
Verification of the spock conflict-resolution and table-synchronization core.

The definitions below shallowly embed the C sources: sync status records and
their character-coded `kind`/`status` fields follow `spock_sync.h`; the
SQL-callable administrative operations follow `spock_functions.c`.  Catalog
storage is modelled as an explicit list of `SpockSyncStatus` records threaded
through each operation, and side effects (truncations, worker signals) are
collected in explicit result fields.
-/

namespace Spock

/-! Constants from spock_sync.h. -/

/-- Sync kind characters, from `spock_sync.h` lines 33-38. -/
def SYNC_KIND_INIT : Char := 'i'

def SYNC_KIND_FULL : Char := 'f'

def SYNC_KIND_FULL_REL : Char := 'l'

def SYNC_KIND_STRUCTURE : Char := 's'

def SYNC_KIND_STRUCTURE_REL : Char := 'r'

def SYNC_KIND_DATA : Char := 'd'

/-- Sync status characters, from `spock_sync.h` lines 59-67.  `SYNC_STATUS_NONE`
is the NUL character in the source. -/
def SYNC_STATUS_NONE : Char := Char.ofNat 0

def SYNC_STATUS_INIT : Char := 'i'

def SYNC_STATUS_STRUCTURE : Char := 's'

def SYNC_STATUS_DATA : Char := 'd'

def SYNC_STATUS_CONSTAINTS : Char := 'c'

def SYNC_STATUS_SYNCWAIT : Char := 'w'

def SYNC_STATUS_CATCHUP : Char := 'u'

def SYNC_STATUS_SYNCDONE : Char := 'y'

def SYNC_STATUS_READY : Char := 'r'

/-- An invalid write-ahead-log position (`InvalidXLogRecPtr`), modelled as 0. -/
def InvalidXLogRecPtr : Nat := 0

/-- The `SpockSyncStatus` record of `spock_sync.h` lines 21-30: one persistent
sync-state row per (subscription, table) pair; empty `nspname`/`relname`
encode the subscription-level record. -/
structure SpockSyncStatus where
  kind : Char
  subid : Nat
  nspname : String
  relname : String
  status : Char
  statuslsn : Nat
  deriving DecidableEq, Repr

/-- Predicate used by the catalog lookups: does record `s` belong to
subscription `subid` and table `nsp`.`rel`? -/
def syncKeyMatches (s : SpockSyncStatus) (subid : Nat) (nsp rel : String) : Bool :=
  s.subid == subid && s.nspname == nsp && s.relname == rel

/-- Embeds `get_table_sync_status`: find the sync record of a table within a
subscription, if any. -/
def get_table_sync_status (recs : List SpockSyncStatus) (subid : Nat)
    (nsp rel : String) : Option SpockSyncStatus :=
  recs.find? (fun s => syncKeyMatches s subid nsp rel)

/-- Embeds `set_table_sync_status`: update the status and status lsn of the
table's sync record. -/
def set_table_sync_status (recs : List SpockSyncStatus) (subid : Nat)
    (nsp rel : String) (status : Char) (lsn : Nat) : List SpockSyncStatus :=
  recs.map (fun s => if syncKeyMatches s subid nsp rel
    then { s with status := status, statuslsn := lsn } else s)

/-- Result of an administrative sync operation: the catalog records afterwards,
the tables truncated, and whether the apply worker was signalled to re-read
sync state (`spock_subscription_changed`). -/
structure SyncOpResult where
  recs : List SpockSyncStatus
  truncated : List (String × String)
  signalled : Bool
  deriving DecidableEq, Repr

/-- The fresh record built by the no-prior-record branch of
`spock_alter_subscription_resynchronize_table` (`spock_functions.c` 919-927). -/
def newDataSync (subid : Nat) (nsp rel : String) : SpockSyncStatus :=
  { kind := SYNC_KIND_DATA
    subid := subid
    nspname := nsp
    relname := rel
    status := SYNC_STATUS_INIT
    statuslsn := 0 }

/-- Embeds `spock_alter_subscription_resynchronize_table`
(`spock_functions.c` 887-939).  When a sync record exists it must be in
status Ready, SyncDone or None, else the call errors; otherwise the record
is reset to Init with an invalid lsn.  When no record exists a fresh
Data/Init record is created.  Finally the table is truncated when requested
and the apply worker signalled. -/
def spock_alter_subscription_resynchronize_table (recs : List SpockSyncStatus)
    (subid : Nat) (nsp rel : String) (truncate : Bool) :
    Except String SyncOpResult :=
  match get_table_sync_status recs subid nsp rel with
  | some oldsync =>
    if oldsync.status ≠ SYNC_STATUS_READY ∧ oldsync.status ≠ SYNC_STATUS_SYNCDONE ∧
        oldsync.status ≠ SYNC_STATUS_NONE then
      .error "table is already being synchronized"
    else
      .ok { recs := set_table_sync_status recs subid nsp rel SYNC_STATUS_INIT
              InvalidXLogRecPtr
            truncated := if truncate then [(nsp, rel)] else []
            signalled := true }
  | none =>
    .ok { recs := recs ++ [newDataSync subid nsp rel]
          truncated := if truncate then [(nsp, rel)] else []
          signalled := true }

/-- A remote table as returned by `pg_logical_get_remote_repset_tables`
(`SpockRemoteRel`), restricted to the target names compared by
`spock_alter_subscription_synchronize`. -/
structure SpockRemoteRel where
  nsptarget : String
  reltarget : String
  deriving DecidableEq, Repr

/-- The name comparison of `spock_alter_subscription_synchronize`
(`spock_functions.c` 837-838): a local sync record matches a remote table when
schema and relation names agree. -/
def relMatches (s : SpockSyncStatus) (r : SpockRemoteRel) : Bool :=
  s.nspname == r.nsptarget && s.relname == r.reltarget

/-- Deleting the first local sync record matching a remote table, as the inner
loop of `spock_alter_subscription_synchronize` does with `list_delete_cell`;
`none` when no record matches. -/
def removeFirstMatch : List SpockSyncStatus → SpockRemoteRel →
    Option (List SpockSyncStatus)
  | [], _ => none
  | l :: ls, r =>
    if relMatches l r then some ls
    else (removeFirstMatch ls r).map (fun ls2 => l :: ls2)

/-- The outer loop of `spock_alter_subscription_synchronize`
(`spock_functions.c` 821-863): walk the remote table list, matching off local
sync records; a remote table with no matching local record yields a fresh
Data/Init record (and a truncation when requested).  Returns the created
records, the local records never matched, and the truncated tables. -/
def syncLoop (subid : Nat) (truncate : Bool) :
    List SpockRemoteRel → List SpockSyncStatus →
    List SpockSyncStatus × List SpockSyncStatus × List (String × String)
  | [], locals => ([], locals, [])
  | r :: rs, locals =>
    match removeFirstMatch locals r with
    | some locals2 => syncLoop subid truncate rs locals2
    | none =>
      let rest := syncLoop subid truncate rs locals
      (newDataSync subid r.nsptarget r.reltarget :: rest.1,
       rest.2.1,
       if truncate then (r.nsptarget, r.reltarget) :: rest.2.2 else rest.2.2)

/-- Result of `spock_alter_subscription_synchronize`: records created, records
dropped (`drop_table_sync_status_for_sub`), tables truncated, and the
apply-worker signal. -/
structure SynchronizeResult where
  created : List SpockSyncStatus
  dropped : List SpockSyncStatus
  truncated : List (String × String)
  signalled : Bool
  deriving DecidableEq, Repr

/-- Embeds `spock_alter_subscription_synchronize` (`spock_functions.c` 802-882)
given the remote table list and the subscription's local sync records: missing
remote tables get new Data/Init records, leftover local records are dropped,
and the apply worker is signalled (`spock_subscription_changed`). -/
def spock_alter_subscription_synchronize (subid : Nat) (truncate : Bool)
    (remote_tables : List SpockRemoteRel) (local_tables : List SpockSyncStatus) :
    SynchronizeResult :=
  let res := syncLoop subid truncate remote_tables local_tables
  { created := res.1
    dropped := res.2.1
    truncated := res.2.2
    signalled := true }

/-- Does an administrative call succeed (no `elog(ERROR)` raised)? -/
def isSuccess {ε α : Type} : Except ε α → Bool
  | .ok _ => true
  | .error _ => false

theorem isSuccess_iff {ε α : Type} (r : Except ε α) :
    isSuccess r = true ↔ ∃ a, r = .ok a := by
  cases r <;> simp [isSuccess]

/-- Mapping a key-preserving in-place update over a list moves `find?` to the
updated image of the found element. -/
theorem find?_map_keyed {α : Type} (p : α → Bool) (f : α → α)
    (hp : ∀ x, p (f x) = p x) (l : List α) (a : α)
    (h : l.find? p = some a) :
    (l.map fun x => if p x then f x else x).find? p = some (f a) := by
  induction l with
  | nil => simp at h
  | cons b l ih =>
    by_cases hb : p b = true
    · rw [List.find?_cons_of_pos _ hb] at h
      injection h with h
      subst h
      simp only [List.map_cons, if_pos hb]
      rw [List.find?_cons_of_pos _ (by rw [hp]; exact hb)]
    · rw [List.find?_cons_of_neg _ hb] at h
      simp only [List.map_cons, if_neg hb]
      rw [List.find?_cons_of_neg _ hb]
      exact ih h

/-- Looking a table up after `set_table_sync_status` yields the old record with
the new status and lsn. -/
theorem get_table_sync_status_after_set (recs : List SpockSyncStatus) (subid : Nat)
    (nsp rel : String) (st : Char) (lsn : Nat) (old : SpockSyncStatus)
    (h : get_table_sync_status recs subid nsp rel = some old) :
    get_table_sync_status (set_table_sync_status recs subid nsp rel st lsn)
      subid nsp rel = some { old with status := st, statuslsn := lsn } := by
  exact find?_map_keyed (fun s => syncKeyMatches s subid nsp rel)
    (fun s => { s with status := st, statuslsn := lsn }) (fun _ => rfl) recs old h

/-- One fresh-snapshot observation of the catalog inside the wait loop of
`spock_wait_for_sync_complete` (`spock_functions.c` 2321-2365): the
subscription record's status (none when the record is absent), the target
table record's status when a table was given (none when the record is
absent), and the `get_unsynced_tables` result. -/
structure SyncSnapshot where
  subStatus : Option Char
  tableStatus : Option Char
  unsyncedTables : List SpockSyncStatus
  deriving DecidableEq, Repr

/-- Outcome of `spock_wait_for_sync_complete`: the isolation-level error, the
missing-table lookup error, completion after a number of latch waits, or an
exhausted observation sequence (the real loop would keep polling). -/
inductive WaitOutcome
  | isolationError
  | lookupError
  | completed (waits : Nat)
  | exhausted
  deriving DecidableEq, Repr

/-- The per-iteration `isdone` computation of `spock_wait_for_sync_complete`
(`spock_functions.c` 2331-2363): the subscription record must exist with
status Ready; then, with a table given, that table's record (fetched with
`missing_ok = false`, so its absence raises an error) must be Ready, and
without a table the unsynced-table list must be empty. -/
def isdoneAt (tableGiven : Bool) (snap : SyncSnapshot) : Except String Bool :=
  let subdone := match snap.subStatus with
    | some st => st == SYNC_STATUS_READY
    | none => false
  if subdone then
    if tableGiven then
      match snap.tableStatus with
      | some st => .ok (st == SYNC_STATUS_READY)
      | none => .error "table sync status not found"
    else
      .ok snap.unsyncedTables.isEmpty
  else
    .ok false

/-- The do-while loop of `spock_wait_for_sync_complete`: check `isdone` under
each successive fresh snapshot, breaking before any latch wait when done and
counting one latch wait per unfinished iteration. -/
def waitLoop (tableGiven : Bool) : List SyncSnapshot → Nat → WaitOutcome
  | [], _ => .exhausted
  | snap :: rest, waits =>
    match isdoneAt tableGiven snap with
    | .error _ => .lookupError
    | .ok true => .completed waits
    | .ok false => waitLoop tableGiven rest (waits + 1)

/-- Embeds `spock_wait_for_sync_complete` (`spock_functions.c` 2307-2381):
under an isolation level that pins the transaction snapshot the call errors
before the loop; otherwise the loop polls the snapshot sequence. -/
def spock_wait_for_sync_complete (isolationUsesXactSnapshot : Bool)
    (tableGiven : Bool) (snaps : List SyncSnapshot) : WaitOutcome :=
  if isolationUsesXactSnapshot then .isolationError
  else waitLoop tableGiven snaps 0

/-- Embeds `spock_wait_for_subscription_sync_complete`
(`spock_functions.c` 2383-2391): the wait with no table given. -/
def spock_wait_for_subscription_sync_complete (isolationUsesXactSnapshot : Bool)
    (snaps : List SyncSnapshot) : WaitOutcome :=
  spock_wait_for_sync_complete isolationUsesXactSnapshot false snaps

/-- Embeds `spock_wait_for_table_sync_complete`
(`spock_functions.c` 2393-2406): the wait with a table given. -/
def spock_wait_for_table_sync_complete (isolationUsesXactSnapshot : Bool)
    (snaps : List SyncSnapshot) : WaitOutcome :=
  spock_wait_for_sync_complete isolationUsesXactSnapshot true snaps

/-- Removal fails exactly when no local record matches the remote table. -/
theorem removeFirstMatch_eq_none (ls : List SpockSyncStatus) (r : SpockRemoteRel) :
    removeFirstMatch ls r = none ↔ ∀ l ∈ ls, relMatches l r = false := by
  induction ls with
  | nil => simp [removeFirstMatch]
  | cons a ls ih =>
    by_cases ha : relMatches a r = true
    · rw [removeFirstMatch, if_pos ha]
      simp only [List.mem_cons]
      constructor
      · intro h; cases h
      · intro h
        have := h a (Or.inl rfl)
        rw [ha] at this
        cases this
    · rw [removeFirstMatch, if_neg ha]
      rw [Option.map_eq_none']
      rw [ih]
      simp only [List.mem_cons]
      constructor
      · intro h l hl
        cases hl with
        | inl hla => subst hla; exact Bool.eq_false_iff.mpr ha
        | inr hl2 => exact h l hl2
      · intro h l hl
        exact h l (Or.inr hl)

/-- A record surviving removal was already present. -/
theorem removeFirstMatch_subset (ls ls2 : List SpockSyncStatus) (r : SpockRemoteRel)
    (h : removeFirstMatch ls r = some ls2) : ∀ x ∈ ls2, x ∈ ls := by
  induction ls generalizing ls2 with
  | nil => cases h
  | cons a ls ih =>
    by_cases ha : relMatches a r = true
    · rw [removeFirstMatch, if_pos ha] at h
      injection h with h
      subst h
      exact fun x hx => List.mem_cons_of_mem a hx
    · rw [removeFirstMatch, if_neg ha] at h
      cases hrm : removeFirstMatch ls r with
      | none => rw [hrm] at h; cases h
      | some ls3 =>
        rw [hrm, Option.map_some'] at h
        injection h with h
        subst h
        intro x hx
        cases List.mem_cons.mp hx with
        | inl hxa => subst hxa; exact List.mem_cons_self _ _
        | inr hx2 => exact List.mem_cons_of_mem a (ih ls3 hrm x hx2)

/-- Removal only deletes a record matching the remote table: records that do
not match survive. -/
theorem removeFirstMatch_keeps (ls ls2 : List SpockSyncStatus) (r : SpockRemoteRel)
    (h : removeFirstMatch ls r = some ls2) (x : SpockSyncStatus) (hx : x ∈ ls)
    (hxr : relMatches x r = false) : x ∈ ls2 := by
  induction ls generalizing ls2 with
  | nil => cases hx
  | cons a ls ih =>
    by_cases ha : relMatches a r = true
    · rw [removeFirstMatch, if_pos ha] at h
      injection h with h
      subst h
      cases List.mem_cons.mp hx with
      | inl hxa => subst hxa; rw [ha] at hxr; cases hxr
      | inr hx2 => exact hx2
    · rw [removeFirstMatch, if_neg ha] at h
      cases hrm : removeFirstMatch ls r with
      | none => rw [hrm] at h; cases h
      | some ls3 =>
        rw [hrm, Option.map_some'] at h
        injection h with h
        subst h
        cases List.mem_cons.mp hx with
        | inl hxa => subst hxa; exact List.mem_cons_self _ _
        | inr hx2 => exact List.mem_cons_of_mem a (ih ls3 hrm hx2)

/-- A remote table that never matches a local record yields a created Data/Init
record (and a truncation when requested). -/
theorem syncLoop_creates (subid : Nat) (truncate : Bool)
    (rs : List SpockRemoteRel) (locals : List SpockSyncStatus) (r : SpockRemoteRel) :
    r ∈ rs → (∀ l ∈ locals, relMatches l r = false) →
    newDataSync subid r.nsptarget r.reltarget ∈ (syncLoop subid truncate rs locals).1 ∧
    (truncate = true →
      (r.nsptarget, r.reltarget) ∈ (syncLoop subid truncate rs locals).2.2) := by
  induction rs generalizing locals with
  | nil => intro hr; cases hr
  | cons r0 rs ih =>
    intro hr hnm
    rw [syncLoop]
    cases List.mem_cons.mp hr with
    | inl hr0 =>
      subst hr0
      rw [(removeFirstMatch_eq_none locals r).mpr hnm]
      dsimp only
      refine ⟨List.mem_cons_self _ _, ?_⟩
      intro ht
      subst ht
      simp
    | inr hr2 =>
      cases hrm : removeFirstMatch locals r0 with
      | some locals2 =>
        dsimp only
        exact ih locals2 hr2
          (fun l hl => hnm l (removeFirstMatch_subset locals locals2 r0 hrm l hl))
      | none =>
        dsimp only
        have hrest := ih locals hr2 hnm
        refine ⟨List.mem_cons_of_mem _ hrest.1, ?_⟩
        intro ht
        subst ht
        simp only [if_true]
        exact List.mem_cons_of_mem _ (hrest.2 rfl)

/-- A local record matching no remote table survives the loop and is dropped. -/
theorem syncLoop_drops (subid : Nat) (truncate : Bool)
    (rs : List SpockRemoteRel) (locals : List SpockSyncStatus) (l : SpockSyncStatus) :
    l ∈ locals → (∀ r ∈ rs, relMatches l r = false) →
    l ∈ (syncLoop subid truncate rs locals).2.1 := by
  induction rs generalizing locals with
  | nil => intro hl _; simpa [syncLoop] using hl
  | cons r0 rs ih =>
    intro hl hnm
    rw [syncLoop]
    cases hrm : removeFirstMatch locals r0 with
    | some locals2 =>
      dsimp only
      exact ih locals2
        (removeFirstMatch_keeps locals locals2 r0 hrm l hl
          (hnm r0 (List.mem_cons_self _ _)))
        (fun r hr => hnm r (List.mem_cons_of_mem _ hr))
    | none =>
      dsimp only
      exact ih locals hl (fun r hr => hnm r (List.mem_cons_of_mem _ hr))

/-- C3: synchronize creates a Data/Init record (truncating first when
requested) for every remote table with no local sync record of the same
names, drops every local record whose table is absent from the remote list,
and signals the apply worker to re-read sync state. -/
theorem synchronize_diffs_tables (subid : Nat) (truncate : Bool)
    (remote_tables : List SpockRemoteRel) (local_tables : List SpockSyncStatus) :
    (∀ r ∈ remote_tables, (∀ l ∈ local_tables, relMatches l r = false) →
      ∃ rec ∈ (spock_alter_subscription_synchronize subid truncate remote_tables
          local_tables).created,
        rec.kind = SYNC_KIND_DATA ∧ rec.status = SYNC_STATUS_INIT ∧
        rec.subid = subid ∧ rec.nspname = r.nsptarget ∧ rec.relname = r.reltarget ∧
        (truncate = true → (r.nsptarget, r.reltarget) ∈
          (spock_alter_subscription_synchronize subid truncate remote_tables
            local_tables).truncated)) ∧
    (∀ l ∈ local_tables, (∀ r ∈ remote_tables, relMatches l r = false) →
      l ∈ (spock_alter_subscription_synchronize subid truncate remote_tables
        local_tables).dropped) ∧
    (spock_alter_subscription_synchronize subid truncate remote_tables
      local_tables).signalled = true := by
  refine ⟨?_, ?_, rfl⟩
  · intro r hr hnm
    have h := syncLoop_creates subid truncate remote_tables local_tables r hr hnm
    exact ⟨newDataSync subid r.nsptarget r.reltarget, h.1, rfl, rfl, rfl, rfl, rfl, h.2⟩
  · intro l hl hnm
    exact syncLoop_drops subid truncate remote_tables local_tables l hl hnm

/-- Witness for C3: one unmatched remote table and one out-of-scope local
record, with truncation requested. -/
theorem synchronize_diffs_tables_witness :
    (∃ rec ∈ (spock_alter_subscription_synchronize 1 true [⟨"public", "a"⟩]
        [⟨'d', 1, "public", "b", 'r', 5⟩]).created,
      rec.kind = SYNC_KIND_DATA ∧ rec.status = SYNC_STATUS_INIT ∧
      rec.subid = 1 ∧ rec.nspname = "public" ∧ rec.relname = "a" ∧
      (true = true → ("public", "a") ∈
        (spock_alter_subscription_synchronize 1 true [⟨"public", "a"⟩]
          [⟨'d', 1, "public", "b", 'r', 5⟩]).truncated)) ∧
    (⟨'d', 1, "public", "b", 'r', 5⟩ : SpockSyncStatus) ∈
      (spock_alter_subscription_synchronize 1 true [⟨"public", "a"⟩]
        [⟨'d', 1, "public", "b", 'r', 5⟩]).dropped ∧
    (spock_alter_subscription_synchronize 1 true [⟨"public", "a"⟩]
      [⟨'d', 1, "public", "b", 'r', 5⟩]).signalled = true := by
  have h := synchronize_diffs_tables 1 true [⟨"public", "a"⟩]
    [⟨'d', 1, "public", "b", 'r', 5⟩]
  exact ⟨h.1 ⟨"public", "a"⟩ (by decide) (by decide),
    h.2.1 ⟨'d', 1, "public", "b", 'r', 5⟩ (by decide) (by decide), h.2.2⟩

/-- C1: a resynchronize-table call on a table with an existing sync-status
record fails with an error iff the record's status is none of Ready, SyncDone
or None (absent); when it does not fail, the record is set to status Init with
the invalid (cleared) status log position. -/
theorem resynchronize_table_existing_guard (recs : List SpockSyncStatus)
    (subid : Nat) (nsp rel : String) (truncate : Bool) (oldsync : SpockSyncStatus)
    (h : get_table_sync_status recs subid nsp rel = some oldsync) :
    (isSuccess (spock_alter_subscription_resynchronize_table recs subid nsp rel
        truncate) = false
      ↔ (oldsync.status ≠ SYNC_STATUS_READY ∧ oldsync.status ≠ SYNC_STATUS_SYNCDONE ∧
          oldsync.status ≠ SYNC_STATUS_NONE)) ∧
    (∀ res, spock_alter_subscription_resynchronize_table recs subid nsp rel truncate
        = .ok res →
      get_table_sync_status res.recs subid nsp rel =
        some { oldsync with status := SYNC_STATUS_INIT, statuslsn := InvalidXLogRecPtr }) := by
  unfold spock_alter_subscription_resynchronize_table
  rw [h]
  dsimp only
  by_cases hg : oldsync.status ≠ SYNC_STATUS_READY ∧ oldsync.status ≠ SYNC_STATUS_SYNCDONE ∧
      oldsync.status ≠ SYNC_STATUS_NONE
  · rw [if_pos hg]
    refine ⟨by simp [isSuccess, hg], ?_⟩
    intro res hres
    cases hres
  · rw [if_neg hg]
    refine ⟨by simp [isSuccess, hg], ?_⟩
    intro res hres
    injection hres with hres
    subst hres
    exact get_table_sync_status_after_set recs subid nsp rel _ _ oldsync h

/-- Witness for C1 at a concrete mid-sync record (status Data), where the call
must fail. -/
theorem resynchronize_table_existing_guard_witness :
    (isSuccess (spock_alter_subscription_resynchronize_table
        [⟨'d', 1, "public", "t", 'd', 0⟩] 1 "public" "t" false) = false
      ↔ ((⟨'d', 1, "public", "t", 'd', 0⟩ : SpockSyncStatus).status ≠ SYNC_STATUS_READY ∧
         (⟨'d', 1, "public", "t", 'd', 0⟩ : SpockSyncStatus).status ≠ SYNC_STATUS_SYNCDONE ∧
         (⟨'d', 1, "public", "t", 'd', 0⟩ : SpockSyncStatus).status ≠ SYNC_STATUS_NONE)) ∧
    (∀ res, spock_alter_subscription_resynchronize_table
        [⟨'d', 1, "public", "t", 'd', 0⟩] 1 "public" "t" false = .ok res →
      get_table_sync_status res.recs 1 "public" "t" =
        some { (⟨'d', 1, "public", "t", 'd', 0⟩ : SpockSyncStatus) with status := SYNC_STATUS_INIT, statuslsn := InvalidXLogRecPtr }) :=
  resynchronize_table_existing_guard _ 1 "public" "t" false _ rfl

/-- C9: a resynchronize-table call on a table with no existing sync-status
record succeeds and creates a record with kind Data, status Init, and the
subscription id and table names of the request. -/
theorem resynchronize_table_missing_creates (recs : List SpockSyncStatus)
    (subid : Nat) (nsp rel : String) (truncate : Bool)
    (h : get_table_sync_status recs subid nsp rel = none) :
    ∃ res, spock_alter_subscription_resynchronize_table recs subid nsp rel truncate
        = .ok res ∧
      ∃ rec ∈ res.recs, rec.kind = SYNC_KIND_DATA ∧ rec.status = SYNC_STATUS_INIT ∧
        rec.subid = subid ∧ rec.nspname = nsp ∧ rec.relname = rel := by
  refine ⟨{ recs := recs ++ [newDataSync subid nsp rel]
            truncated := if truncate then [(nsp, rel)] else []
            signalled := true }, ?_, ?_⟩
  · unfold spock_alter_subscription_resynchronize_table
    rw [h]
  · exact ⟨newDataSync subid nsp rel, by simp, rfl, rfl, rfl, rfl, rfl⟩

/-- Witness for C9 on an empty catalog. -/
theorem resynchronize_table_missing_creates_witness :
    ∃ res, spock_alter_subscription_resynchronize_table [] 1 "public" "t" false
        = .ok res ∧
      ∃ rec ∈ res.recs, rec.kind = SYNC_KIND_DATA ∧ rec.status = SYNC_STATUS_INIT ∧
        rec.subid = 1 ∧ rec.nspname = "public" ∧ rec.relname = "t" :=
  resynchronize_table_missing_creates [] 1 "public" "t" false rfl

/-- Embeds `SyncStructureAll` (`spock_sync.h` 49-50): structure option "all". -/
def SyncStructureAll (sync_structure : String) : Bool :=
  sync_structure == "all"

/-- Embeds `SyncStructureRelOnly` (`spock_sync.h` 52-53): structure option
"relations_only". -/
def SyncStructureRelOnly (sync_structure : String) : Bool :=
  sync_structure == "relations_only"

/-- The sync-kind selection chain of `spock_create_subscription`
(`spock_functions.c` 519-530). -/
def subscription_sync_kind (sync_structure : String) (sync_data : Bool) : Char :=
  if SyncStructureAll sync_structure && sync_data then SYNC_KIND_FULL
  else if SyncStructureRelOnly sync_structure && sync_data then SYNC_KIND_FULL_REL
  else if SyncStructureAll sync_structure then SYNC_KIND_STRUCTURE
  else if SyncStructureRelOnly sync_structure then SYNC_KIND_STRUCTURE_REL
  else if sync_data then SYNC_KIND_DATA
  else SYNC_KIND_INIT

/-- An existing subscription to the origin node, restricted to the fields the
overlapping-replication-set check reads. -/
structure SpockSubscription where
  name : String
  replication_sets : List String
  deriving DecidableEq, Repr

/-- The overlapping-replication-set scan of `spock_create_subscription`
(`spock_functions.c` 466-491): the first pair of an existing subscription and
a requested set name it already subscribes to, if any. -/
def findOverlap (other_subs : List SpockSubscription)
    (replication_sets : List String) : Option (String × String) :=
  other_subs.findSome? (fun esub =>
    esub.replication_sets.findSome? (fun existingset =>
      replication_sets.findSome? (fun newset =>
        if newset == existingset then some (esub.name, newset) else none)))

/-- Result of a successful `spock_create_subscription`: the new subscription id
and the sync-status records created alongside it. -/
structure CreateSubscriptionResult where
  subid : Nat
  syncRecords : List SpockSyncStatus
  deriving DecidableEq, Repr

/-- Embeds the replication-set overlap check and sync-status creation of
`spock_create_subscription` (`spock_functions.c` 460-537): any overlap with an
existing subscription to the same origin errors before anything is created;
otherwise the subscription is created together with exactly one
subscription-level sync record (zeroed, then kind per the sync options and
status Init). -/
def spock_create_subscription (other_subs : List SpockSubscription)
    (replication_sets : List String) (sync_structure : String) (sync_data : Bool)
    (newSubid : Nat) : Except String CreateSubscriptionResult :=
  match findOverlap other_subs replication_sets with
  | some _ =>
    .error "existing subscription to node already subscribes to replication set"
  | none =>
    .ok { subid := newSubid
          syncRecords := [{ kind := subscription_sync_kind sync_structure sync_data
                            subid := newSubid
                            nspname := ""
                            relname := ""
                            status := SYNC_STATUS_INIT
                            statuslsn := 0 }] }

/-- C5: under an isolation level that pins a single transaction snapshot, both
wait-for-sync entry points fail synchronously with the isolation error, before
any wait-loop iteration runs. -/
theorem wait_for_sync_isolation_guard (snaps : List SyncSnapshot) :
    spock_wait_for_subscription_sync_complete true snaps =
      WaitOutcome.isolationError ∧
    spock_wait_for_table_sync_complete true snaps = WaitOutcome.isolationError :=
  ⟨rfl, rfl⟩

/-- C6 counterexample: the subscription record is Ready at the first check, no
table is given, yet one table is still unsynced, so the wait performs one
latch wait before completing — the claim's condition does not suffice. -/
theorem wait_ready_still_polls_counterexample :
    (⟨some SYNC_STATUS_READY, none, [⟨'d', 1, "public", "t", 'i', 0⟩]⟩ :
        SyncSnapshot).subStatus = some SYNC_STATUS_READY ∧
    spock_wait_for_subscription_sync_complete false
      [⟨some SYNC_STATUS_READY, none, [⟨'d', 1, "public", "t", 'i', 0⟩]⟩,
       ⟨some SYNC_STATUS_READY, none, []⟩] = WaitOutcome.completed 1 :=
  ⟨rfl, rfl⟩

/-- C6 (amended): when the first check finds the subscription record Ready,
the given table's record Ready (table case), and no unsynced tables left
(subscription case), the wait returns with zero latch waits. -/
theorem wait_ready_no_poll (tableGiven : Bool) (snap : SyncSnapshot)
    (rest : List SyncSnapshot)
    (hsub : snap.subStatus = some SYNC_STATUS_READY)
    (htab : tableGiven = true → snap.tableStatus = some SYNC_STATUS_READY)
    (hun : tableGiven = false → snap.unsyncedTables = []) :
    spock_wait_for_sync_complete false tableGiven (snap :: rest) =
      WaitOutcome.completed 0 := by
  have hdone : isdoneAt tableGiven snap = .ok true := by
    cases tableGiven with
    | true => simp [isdoneAt, hsub, htab rfl, SYNC_STATUS_READY]
    | false => simp [isdoneAt, hsub, hun rfl, SYNC_STATUS_READY]
  rw [spock_wait_for_sync_complete, if_neg Bool.false_ne_true, waitLoop, hdone]

/-- Witness for the amended C6 at a concrete all-Ready first snapshot. -/
theorem wait_ready_no_poll_witness :
    spock_wait_for_sync_complete false true
      [⟨some SYNC_STATUS_READY, some SYNC_STATUS_READY, []⟩] =
      WaitOutcome.completed 0 :=
  wait_ready_no_poll true ⟨some SYNC_STATUS_READY, some SYNC_STATUS_READY, []⟩ []
    rfl (fun _ => rfl) (fun h => by cases h)

/-- The two sync-structure options are mutually exclusive strings. -/
theorem not_all_of_relOnly (s : String) (h : SyncStructureRelOnly s = true) :
    SyncStructureAll s = false := by
  unfold SyncStructureRelOnly at h
  unfold SyncStructureAll
  have hs : s = "relations_only" := by simpa using h
  subst hs
  decide

/-- C7: every successful create-subscription call creates exactly one
subscription-level sync record with status Init, whose kind follows the sync
options: Full for structure "all" with data, Full_rel for "relations_only"
with data, Structure for "all" without data, Structure_rel for
"relations_only" without data, Data for data without structure sync, and Init
when neither is requested. -/
theorem create_subscription_sync_record (other_subs : List SpockSubscription)
    (replication_sets : List String) (sync_structure : String) (sync_data : Bool)
    (newSubid : Nat) (res : CreateSubscriptionResult)
    (h : spock_create_subscription other_subs replication_sets sync_structure
      sync_data newSubid = .ok res) :
    ∃ rec, res.syncRecords = [rec] ∧ rec.status = SYNC_STATUS_INIT ∧
      rec.subid = newSubid ∧ rec.nspname = "" ∧ rec.relname = "" ∧
      (SyncStructureAll sync_structure = true → sync_data = true →
        rec.kind = SYNC_KIND_FULL) ∧
      (SyncStructureRelOnly sync_structure = true → sync_data = true →
        rec.kind = SYNC_KIND_FULL_REL) ∧
      (SyncStructureAll sync_structure = true → sync_data = false →
        rec.kind = SYNC_KIND_STRUCTURE) ∧
      (SyncStructureRelOnly sync_structure = true → sync_data = false →
        rec.kind = SYNC_KIND_STRUCTURE_REL) ∧
      (SyncStructureAll sync_structure = false →
        SyncStructureRelOnly sync_structure = false → sync_data = true →
        rec.kind = SYNC_KIND_DATA) ∧
      (SyncStructureAll sync_structure = false →
        SyncStructureRelOnly sync_structure = false → sync_data = false →
        rec.kind = SYNC_KIND_INIT) := by
  unfold spock_create_subscription at h
  cases hov : findOverlap other_subs replication_sets with
  | some p => rw [hov] at h; cases h
  | none =>
    rw [hov] at h
    injection h with h
    subst h
    refine ⟨_, rfl, rfl, rfl, rfl, rfl, ?_, ?_, ?_, ?_, ?_, ?_⟩
    · intro hall hd
      simp [subscription_sync_kind, hall, hd]
    · intro hrel hd
      simp [subscription_sync_kind, hrel, hd, not_all_of_relOnly _ hrel]
    · intro hall hd
      simp [subscription_sync_kind, hall, hd]
    · intro hrel hd
      simp [subscription_sync_kind, hrel, hd, not_all_of_relOnly _ hrel]
    · intro hall hrel hd
      simp [subscription_sync_kind, hall, hrel, hd]
    · intro hall hrel hd
      simp [subscription_sync_kind, hall, hrel, hd]

/-- Witness for C7 at structure "all" with data, where the kind must be Full. -/
theorem create_subscription_sync_record_witness :
    ∃ rec, (CreateSubscriptionResult.mk 7
        [⟨SYNC_KIND_FULL, 7, "", "", SYNC_STATUS_INIT, 0⟩]).syncRecords = [rec] ∧
      rec.status = SYNC_STATUS_INIT ∧ rec.subid = 7 ∧ rec.nspname = "" ∧
      rec.relname = "" ∧
      (SyncStructureAll "all" = true → true = true → rec.kind = SYNC_KIND_FULL) ∧
      (SyncStructureRelOnly "all" = true → true = true →
        rec.kind = SYNC_KIND_FULL_REL) ∧
      (SyncStructureAll "all" = true → true = false →
        rec.kind = SYNC_KIND_STRUCTURE) ∧
      (SyncStructureRelOnly "all" = true → true = false →
        rec.kind = SYNC_KIND_STRUCTURE_REL) ∧
      (SyncStructureAll "all" = false → SyncStructureRelOnly "all" = false →
        true = true → rec.kind = SYNC_KIND_DATA) ∧
      (SyncStructureAll "all" = false → SyncStructureRelOnly "all" = false →
        true = false → rec.kind = SYNC_KIND_INIT) :=
  create_subscription_sync_record [] ["default"] "all" true 7
    ⟨7, [⟨SYNC_KIND_FULL, 7, "", "", SYNC_STATUS_INIT, 0⟩]⟩ rfl

/-- C10: when an existing subscription to the same origin node already
subscribes to one of the requested replication set names, create-subscription
fails with an error; the error branch creates neither a subscription nor a
sync record. -/
theorem create_subscription_overlap_fails (other_subs : List SpockSubscription)
    (replication_sets : List String) (sync_structure : String) (sync_data : Bool)
    (newSubid : Nat)
    (h : ∃ esub ∈ other_subs, ∃ rset ∈ esub.replication_sets,
      rset ∈ replication_sets) :
    isSuccess (spock_create_subscription other_subs replication_sets
      sync_structure sync_data newSubid) = false := by
  obtain ⟨esub, hesub, rset, hrset, hnew⟩ := h
  unfold spock_create_subscription
  cases hov : findOverlap other_subs replication_sets with
  | some p => simp [isSuccess]
  | none =>
    exfalso
    rw [findOverlap, List.findSome?_eq_none_iff] at hov
    have h1 := hov esub hesub
    rw [List.findSome?_eq_none_iff] at h1
    have h2 := h1 rset hrset
    rw [List.findSome?_eq_none_iff] at h2
    have h3 := h2 rset hnew
    simp at h3

/-- Witness for C10: the requested set "default" already belongs to an
existing subscription. -/
theorem create_subscription_overlap_fails_witness :
    isSuccess (spock_create_subscription [⟨"s1", ["default"]⟩] ["default"] "all"
      true 7) = false :=
  create_subscription_overlap_fails [⟨"s1", ["default"]⟩] ["default"] "all" true 7
    (by decide)

/-- A row image: an ordered sequence of typed column values, absent meaning
SQL null. -/
def RowImage : Type := List (Option Int)

/-- Embeds `filter_tuple` (`spock_functions.c` 2135-2159): evaluate each
prepared row-filter expression on the stored tuple; a null evaluation result
is treated the same as false and excludes the tuple, which passes only when
every filter returns non-null true. -/
def filter_tuple (htup : RowImage)
    (row_filter_list : List (RowImage → Option Bool)) : Bool :=
  match row_filter_list with
  | [] => true
  | exprstate :: rest =>
    match exprstate htup with
    | none => false
    | some res => if res then filter_tuple htup rest else false

/-- C8: the tuple filter returns true iff every filter expression evaluates to
a non-null true value on the row; a null result of any filter therefore
excludes the row exactly as false does. -/
theorem filter_tuple_iff_all_true (htup : RowImage)
    (row_filter_list : List (RowImage → Option Bool)) :
    filter_tuple htup row_filter_list = true ↔
      ∀ f ∈ row_filter_list, f htup = some true := by
  induction row_filter_list with
  | nil => simp [filter_tuple]
  | cons f fs ih =>
    rw [filter_tuple]
    cases hf : f htup with
    | none => simp [hf]
    | some b =>
      cases b with
      | true => simp [hf, ih]
      | false => simp [hf]

/-- Events driving a per-table sync record: the sync worker advancing one
bootstrap phase, or an explicit resynchronize request. -/
inductive SyncEvent
  | advance
  | resync
  deriving DecidableEq, Repr

/-- Position of a status character in the bootstrap order
Init, Structure, Data, Constraints, SyncWait, Catchup, SyncDone, Ready. -/
def statusIndex (s : Char) : Option Nat :=
  if s = SYNC_STATUS_INIT then some 0
  else if s = SYNC_STATUS_STRUCTURE then some 1
  else if s = SYNC_STATUS_DATA then some 2
  else if s = SYNC_STATUS_CONSTAINTS then some 3
  else if s = SYNC_STATUS_SYNCWAIT then some 4
  else if s = SYNC_STATUS_CATCHUP then some 5
  else if s = SYNC_STATUS_SYNCDONE then some 6
  else if s = SYNC_STATUS_READY then some 7
  else none

/-- Does the step from status `s` to status `t` move strictly forward along
the bootstrap order? -/
def forwardStep (s t : Char) : Bool :=
  match statusIndex s, statusIndex t with
  | some i, some j => i < j
  | _, _ => false

/-- Modelled from the spec: the sync-worker driver (`spock_sync.c`) that
performs the per-table phase transitions is not among the provided sources;
spec §4.4 fixes the advance order Init → Structure → Data → Constraints →
SyncWait → Catchup → SyncDone → Ready.  The resync event follows the code of
`spock_alter_subscription_resynchronize_table` (`spock_functions.c` 904-916),
which refuses mid-sync states and sets status Init. -/
def syncNext (e : SyncEvent) (s : Char) : Option Char :=
  match e with
  | .advance =>
    if s = SYNC_STATUS_INIT then some SYNC_STATUS_STRUCTURE
    else if s = SYNC_STATUS_STRUCTURE then some SYNC_STATUS_DATA
    else if s = SYNC_STATUS_DATA then some SYNC_STATUS_CONSTAINTS
    else if s = SYNC_STATUS_CONSTAINTS then some SYNC_STATUS_SYNCWAIT
    else if s = SYNC_STATUS_SYNCWAIT then some SYNC_STATUS_CATCHUP
    else if s = SYNC_STATUS_CATCHUP then some SYNC_STATUS_SYNCDONE
    else if s = SYNC_STATUS_SYNCDONE then some SYNC_STATUS_READY
    else none
  | .resync =>
    if s ≠ SYNC_STATUS_READY ∧ s ≠ SYNC_STATUS_SYNCDONE ∧ s ≠ SYNC_STATUS_NONE then
      none
    else
      some SYNC_STATUS_INIT

/-- An advance step always moves strictly forward along the bootstrap order. -/
theorem advance_forward (s t : Char) (h : syncNext SyncEvent.advance s = some t) :
    forwardStep s t = true := by
  simp only [syncNext] at h
  repeat' split at h
  all_goals first
    | exact Option.noConfusion h
    | (injection h with h; subst_vars; decide)

/-- C2: every transition of the per-table sync state machine either moves
strictly forward along the order Init, Structure, Data, Constraints,
SyncWait, Catchup, SyncDone, Ready, or is an explicit resynchronize request;
a resynchronize request always lands the record on Init. -/
theorem sync_transitions_forward_except_resync (e : SyncEvent) (s t : Char)
    (h : syncNext e s = some t) :
    (forwardStep s t = true ∨ (e = SyncEvent.resync ∧ t = SYNC_STATUS_INIT)) ∧
    (e = SyncEvent.resync → t = SYNC_STATUS_INIT) := by
  cases e with
  | advance =>
    refine ⟨Or.inl (advance_forward s t h), ?_⟩
    intro he
    cases he
  | resync =>
    have ht : t = SYNC_STATUS_INIT := by
      simp only [syncNext] at h
      split at h
      · exact Option.noConfusion h
      · injection h with h
        exact h.symm
    exact ⟨Or.inr ⟨rfl, ht⟩, fun _ => ht⟩

/-- Witness for C2 at the concrete advance step from Init. -/
theorem sync_transitions_forward_except_resync_witness :
    (forwardStep SYNC_STATUS_INIT SYNC_STATUS_STRUCTURE = true ∨
      (SyncEvent.advance = SyncEvent.resync ∧
        SYNC_STATUS_STRUCTURE = SYNC_STATUS_INIT)) ∧
    (SyncEvent.advance = SyncEvent.resync →
      SYNC_STATUS_STRUCTURE = SYNC_STATUS_INIT) :=
  sync_transitions_forward_except_resync SyncEvent.advance SYNC_STATUS_INIT
    SYNC_STATUS_STRUCTURE (by decide)

/-- The four conflict types of `spock_conflict.h` lines 43-49. -/
inductive SpockConflictType
  | insertInsert
  | updateUpdate
  | updateDelete
  | deleteDelete
  deriving DecidableEq, Repr

/-- The five resolver policies of `spock_conflict.h` lines 31-38. -/
inductive SpockResolveOption
  | resolveError
  | applyRemote
  | keepLocal
  | lastUpdateWins
  | firstUpdateWins
  deriving DecidableEq, Repr

/-- The resolution outcomes of `spock_conflict.h` lines 24-29. -/
inductive SpockConflictResolution
  | applyRemote
  | keepLocal
  | skip
  deriving DecidableEq, Repr

/-- Origin metadata of a row version: origin identifier and commit
timestamp. -/
structure OriginInfo where
  origin_id : Nat
  commit_ts : Int
  deriving DecidableEq, Repr

/-- Modelled from the spec: is the remote side the later update?  An absent
origin is treated as earliest possible; on equal commit timestamps the side
with the numerically smaller origin identifier wins (spec §4.2). -/
def remoteIsLater (localO remoteO : Option OriginInfo) : Bool :=
  match localO, remoteO with
  | none, none => false
  | none, some _ => true
  | some _, none => false
  | some lo, some ro =>
    if ro.commit_ts > lo.commit_ts then true
    else if ro.commit_ts < lo.commit_ts then false
    else ro.origin_id < lo.origin_id

/-- Modelled from the spec: the body of `try_resolve_conflict`
(`spock_conflict.c`) is not among the provided sources; spec §4.2's decision
table fixes the outcome per conflict type and policy, with DeleteDelete
always resolving to Skip with no row applied and no error. -/
def try_resolve_conflict (ctype : SpockConflictType) (policy : SpockResolveOption)
    (localRow remoteRow : RowImage) (localO remoteO : Option OriginInfo) :
    Except String (SpockConflictResolution × Option RowImage) :=
  match ctype with
  | .deleteDelete => .ok (.skip, none)
  | _ =>
    match policy with
    | .resolveError => .error "conflict detected"
    | .applyRemote => .ok (.applyRemote, some remoteRow)
    | .keepLocal => .ok (.keepLocal, none)
    | .lastUpdateWins =>
      if remoteIsLater localO remoteO then .ok (.applyRemote, some remoteRow)
      else .ok (.keepLocal, none)
    | .firstUpdateWins =>
      if remoteIsLater localO remoteO then .ok (.keepLocal, none)
      else .ok (.applyRemote, some remoteRow)

/-- C4: a DeleteDelete conflict resolves to Skip with no row image applied and
never raises an error, under every resolver policy. -/
theorem delete_delete_always_skips (policy : SpockResolveOption)
    (localRow remoteRow : RowImage) (localO remoteO : Option OriginInfo) :
    try_resolve_conflict SpockConflictType.deleteDelete policy localRow remoteRow
      localO remoteO = .ok (SpockConflictResolution.skip, none) :=
  rfl

end Spock
